import Mathlib

/- Formal model of the document-orchestrator application (src/app.py).
   Python strings are modelled as lists of characters (Python slices and
   string operations act on code points, matching List Char operations).
   External collaborators (the PDF libraries, the LLM HTTP API, the webhook
   HTTP call) are modelled as oracle arguments of type Except Unit. -/

set_option maxRecDepth 10000

abbrev PyStr := List Char

/-- The opening-brace character, written via its code point. -/
def lbrace : Char := Char.ofNat 123

/-- The closing-brace character, written via its code point. -/
def rbrace : Char := Char.ofNat 125

/- A dynamically-typed JSON value, as produced by the Python json module.
   Integer literals become jint (Python int); literals with a fraction or
   exponent, and the NaN/Infinity constants, are kept as their literal text
   in jfloatLit, since no observable behaviour of the program depends on
   evaluated float values. Objects are ordered key-value lists with the
   dict semantics that a duplicate key updates the value in place. -/
inductive JValue : Type where
  | jnull : JValue
  | jbool : Bool → JValue
  | jint : Int → JValue
  | jfloatLit : PyStr → JValue
  | jstr : PyStr → JValue
  | jarr : List JValue → JValue
  | jobj : List (PyStr × JValue) → JValue

/-- JSON whitespace accepted by the Python json scanner: space, tab, newline,
carriage return. -/
def isJsonWs (c : Char) : Bool :=
  c = ' ' || c = '\t' || c = '\n' || c = '\r'

/-- Drop leading JSON whitespace. -/
def skipWs (s : PyStr) : PyStr := s.dropWhile isJsonWs

/-- Value of a hexadecimal digit character, if it is one. -/
def hexVal (c : Char) : Option Nat :=
  if '0' ≤ c ∧ c ≤ '9' then some (c.toNat - 48)
  else if 'a' ≤ c ∧ c ≤ 'f' then some (c.toNat - 87)
  else if 'A' ≤ c ∧ c ≤ 'F' then some (c.toNat - 55)
  else none

/-- Single-character JSON string escapes. -/
def escChar (e : Char) : Option Char :=
  if e = '"' then some '"'
  else if e = '\\' then some '\\'
  else if e = '/' then some '/'
  else if e = 'b' then some (Char.ofNat 8)
  else if e = 'f' then some (Char.ofNat 12)
  else if e = 'n' then some '\n'
  else if e = 'r' then some '\r'
  else if e = 't' then some '\t'
  else none

/- Body of a JSON string after the opening quote: returns the decoded
   characters and the remaining input after the closing quote. Mirrors the
   strict Python json scanner: raw control characters below 0x20 are
   rejected, unknown escapes are rejected, a high \uXXXX surrogate followed
   by the two characters backslash-u must be followed by four hex digits and
   combines with a low surrogate into one code point; a lone surrogate,
   which Python keeps in the str, is unrepresentable as a Lean Char and maps
   through Char.ofNat (no claim exercises that corner). The fuel argument is
   a recursion bound only; every recursive call consumes at least one input
   character, so the entry point supplies input length plus one, which can
   never run out. -/
def parseStrBody (fuel : Nat) (s : PyStr) : Except Unit (PyStr × PyStr) :=
  match fuel with
  | 0 => .error ()
  | fuel + 1 =>
    match s with
    | [] => .error ()
    | c :: rest =>
      if c = '"' then .ok ([], rest)
      else if c = '\\' then
        match rest with
        | [] => .error ()
        | e :: rest2 =>
          if e = 'u' then
            match rest2 with
            | h1 :: h2 :: h3 :: h4 :: rest3 =>
              match hexVal h1, hexVal h2, hexVal h3, hexVal h4 with
              | some a1, some a2, some a3, some a4 =>
                let n := a1 * 4096 + a2 * 256 + a3 * 16 + a4
                if 0xD800 ≤ n ∧ n < 0xDC00 then
                  if rest3.take 2 = ['\\', 'u'] then
                    match rest3.drop 2 with
                    | g1 :: g2 :: g3 :: g4 :: _ =>
                      match hexVal g1, hexVal g2, hexVal g3, hexVal g4 with
                      | some d1, some d2, some d3, some d4 =>
                        let n2 := d1 * 4096 + d2 * 256 + d3 * 16 + d4
                        if 0xDC00 ≤ n2 ∧ n2 < 0xE000 then
                          match parseStrBody fuel (rest3.drop 6) with
                          | .ok (s, r) =>
                            .ok (Char.ofNat (0x10000 + (n - 0xD800) * 1024 + (n2 - 0xDC00)) :: s, r)
                          | .error err => .error err
                        else
                          match parseStrBody fuel rest3 with
                          | .ok (s, r) => .ok (Char.ofNat n :: s, r)
                          | .error err => .error err
                      | _, _, _, _ => .error ()
                    | _ => .error ()
                  else
                    match parseStrBody fuel rest3 with
                    | .ok (s, r) => .ok (Char.ofNat n :: s, r)
                    | .error err => .error err
                else
                  match parseStrBody fuel rest3 with
                  | .ok (s, r) => .ok (Char.ofNat n :: s, r)
                  | .error err => .error err
              | _, _, _, _ => .error ()
            | _ => .error ()
          else
            match escChar e with
            | some ec =>
              match parseStrBody fuel rest2 with
              | .ok (s, r) => .ok (ec :: s, r)
              | .error err => .error err
            | none => .error ()
      else if c.toNat < 0x20 then .error ()
      else
        match parseStrBody fuel rest with
        | .ok (s, r) => .ok (c :: s, r)
        | .error err => .error err

/-- Longest leading run of decimal digits, with the remainder. -/
def digitsSpan : PyStr → PyStr × PyStr
  | [] => ([], [])
  | c :: rest =>
    if '0' ≤ c ∧ c ≤ '9' then
      let (d, r) := digitsSpan rest
      (c :: d, r)
    else ([], c :: rest)

/-- Decimal digits to a natural number, accumulator style. -/
def digitsToNat : Nat → PyStr → Nat
  | acc, [] => acc
  | acc, c :: rest => digitsToNat (acc * 10 + (c.toNat - 48)) rest

/-- Integer part of a JSON number: a single 0, or a nonzero digit followed
by digits, per the json number regular expression. -/
def parseIntPart : PyStr → Option (PyStr × PyStr)
  | [] => none
  | c :: rest =>
    if c = '0' then some ([c], rest)
    else if '1' ≤ c ∧ c ≤ '9' then
      let (d, r) := digitsSpan rest
      some (c :: d, r)
    else none

/-- Optional fraction part: a dot followed by at least one digit, otherwise
nothing is consumed. -/
def parseFracPart : PyStr → Option PyStr × PyStr
  | [] => (none, [])
  | c :: r =>
    if c = '.' then
      match digitsSpan r with
      | ([], _) => (none, c :: r)
      | (d, r2) => (some d, r2)
    else (none, c :: r)

/-- Optional exponent part: e or E, an optional sign, then at least one
digit, otherwise nothing is consumed. -/
def parseExpPart : PyStr → Option (Bool × PyStr) × PyStr
  | [] => (none, [])
  | c :: r =>
    if c = 'e' ∨ c = 'E' then
      match
        (match r with
         | '+' :: r2 => (false, r2)
         | '-' :: r2 => (true, r2)
         | _ => (false, r)) with
      | (sgn, r1) =>
        match digitsSpan r1 with
        | ([], _) => (none, c :: r)
        | (d, r2) => (some (sgn, d), r2)
    else (none, c :: r)

/-- A JSON number starting at the given input (first character is a minus
sign or a digit). An integer literal becomes jint via the Python int
conversion; a literal with fraction or exponent is kept as its text. -/
def parseNum (s : PyStr) : Except Unit (JValue × PyStr) :=
  match
    (match s with
     | '-' :: rest => (true, rest)
     | _ => (false, s)) with
  | (neg, s1) =>
    match parseIntPart s1 with
    | none => .error ()
    | some (intD, r1) =>
      match parseFracPart r1 with
      | (fracD, r2) =>
        match parseExpPart r2 with
        | (expD, r3) =>
          match fracD, expD with
          | none, none =>
            let n : Int := Int.ofNat (digitsToNat 0 intD)
            .ok (.jint (if neg then -n else n), r3)
          | _, _ =>
            let lit : PyStr :=
              (if neg then ['-'] else []) ++ intD
                ++ (match fracD with | some d => '.' :: d | none => [])
                ++ (match expD with
                    | some (sg, d) => 'e' :: ((if sg then ['-'] else []) ++ d)
                    | none => [])
            .ok (.jfloatLit lit, r3)

/-- Insert a key-value pair with Python dict semantics: an existing key
keeps its position and its value is updated, a new key is appended. -/
def insertAssoc (fields : List (PyStr × JValue)) (k : PyStr) (v : JValue) :
    List (PyStr × JValue) :=
  match fields with
  | [] => [(k, v)]
  | (k2, v2) :: rest =>
    if k2 = k then (k2, v) :: rest else (k2, v2) :: insertAssoc rest k v

mutual

/-- One JSON value starting at the given input (leading whitespace already
skipped). Mirrors the Python json scanner including the non-standard NaN,
Infinity and -Infinity constants. Fuel bounds the recursion depth; the
top-level entry point supplies more fuel than any input can consume, since
every recursive call first consumes at least one character. -/
def parseVal (fuel : Nat) (s : PyStr) : Except Unit (JValue × PyStr) :=
  match fuel with
  | 0 => .error ()
  | fuel + 1 =>
    match s with
    | [] => .error ()
    | c :: rest =>
      if c = lbrace then
        match skipWs rest with
        | [] => .error ()
        | c2 :: rest2 =>
          if c2 = rbrace then .ok (.jobj [], rest2)
          else parseMembers fuel (c2 :: rest2) []
      else if c = '[' then
        match skipWs rest with
        | [] => .error ()
        | c2 :: rest2 =>
          if c2 = ']' then .ok (.jarr [], rest2)
          else parseItems fuel (c2 :: rest2) []
      else if c = '"' then
        match parseStrBody (rest.length + 1) rest with
        | .ok (str, r) => .ok (.jstr str, r)
        | .error e => .error e
      else if c = 't' then
        match rest with
        | 'r' :: 'u' :: 'e' :: r => .ok (.jbool true, r)
        | _ => .error ()
      else if c = 'f' then
        match rest with
        | 'a' :: 'l' :: 's' :: 'e' :: r => .ok (.jbool false, r)
        | _ => .error ()
      else if c = 'n' then
        match rest with
        | 'u' :: 'l' :: 'l' :: r => .ok (.jnull, r)
        | _ => .error ()
      else if c = 'N' then
        match rest with
        | 'a' :: 'N' :: r => .ok (.jfloatLit ("NaN".data), r)
        | _ => .error ()
      else if c = 'I' then
        match rest with
        | 'n' :: 'f' :: 'i' :: 'n' :: 'i' :: 't' :: 'y' :: r =>
          .ok (.jfloatLit ("Infinity".data), r)
        | _ => .error ()
      else if c = '-' then
        match rest with
        | 'I' :: 'n' :: 'f' :: 'i' :: 'n' :: 'i' :: 't' :: 'y' :: r =>
          .ok (.jfloatLit ("-Infinity".data), r)
        | _ => parseNum (c :: rest)
      else if '0' ≤ c ∧ c ≤ '9' then parseNum (c :: rest)
      else .error ()

/-- Members of a JSON object after the opening brace, input positioned at
the start of a key (whitespace already skipped, not the empty object). -/
def parseMembers (fuel : Nat) (s : PyStr) (acc : List (PyStr × JValue)) :
    Except Unit (JValue × PyStr) :=
  match fuel with
  | 0 => .error ()
  | fuel + 1 =>
    match s with
    | [] => .error ()
    | c :: rest =>
      if c = '"' then
        match parseStrBody (rest.length + 1) rest with
        | .error e => .error e
        | .ok (key, r1) =>
          match skipWs r1 with
          | ':' :: r2 =>
            match parseVal fuel (skipWs r2) with
            | .error e => .error e
            | .ok (v, r3) =>
              match skipWs r3 with
              | [] => .error ()
              | c4 :: r4 =>
                if c4 = ',' then
                  match skipWs r4 with
                  | [] => .error ()
                  | s5 => parseMembers fuel s5 (insertAssoc acc key v)
                else if c4 = rbrace then .ok (.jobj (insertAssoc acc key v), r4)
                else .error ()
          | _ => .error ()
      else .error ()

/-- Items of a JSON array after the opening bracket, input positioned at the
start of a value (whitespace already skipped, not the empty array). -/
def parseItems (fuel : Nat) (s : PyStr) (acc : List JValue) :
    Except Unit (JValue × PyStr) :=
  match fuel with
  | 0 => .error ()
  | fuel + 1 =>
    match parseVal fuel s with
    | .error e => .error e
    | .ok (v, r1) =>
      match skipWs r1 with
      | [] => .error ()
      | c :: r2 =>
        if c = ',' then parseItems fuel (skipWs r2) (acc ++ [v])
        else if c = ']' then .ok (.jarr (acc ++ [v]), r2)
        else .error ()

end

/-- Model of Python json.loads: skip leading whitespace, parse exactly one
JSON value, and require only whitespace to remain (otherwise the Extra data
error). All failures are collapsed to a unit error. -/
def json_loads (s : PyStr) : Except Unit JValue :=
  match parseVal (s.length + 1) (skipWs s) with
  | .error e => .error e
  | .ok (v, rest) => if skipWs rest = [] then .ok v else .error ()

/- The regular-expression fallback of ask_groq_json. The pattern
   backslash-lbrace dot-star backslash-rbrace with the DOTALL flag matches,
   when it matches at all, from the first opening brace of the string
   (leftmost match) greedily to the last closing brace of the string; it
   matches exactly when some closing brace occurs strictly after the first
   opening brace. braceSpan returns that matched span. -/
def braceSpan (s : PyStr) : Option PyStr :=
  let t := s.dropWhile (fun c => c ≠ lbrace)
  let u := (t.reverse.dropWhile (fun c => c ≠ rbrace)).reverse
  if u = [] then none else some u

/-- The post-response phase of ask_groq_json (src/app.py lines 59 to 66):
try a direct parse of the content; on failure search for the brace span and,
when found, parse it with no surrounding handler, so a failure of that
second parse propagates as an exception; only when no span exists is the
fallback raw mapping returned. -/
def ask_groq_json_parse (content : PyStr) : Except Unit JValue :=
  match json_loads content with
  | .ok v => .ok v
  | .error _ =>
    match braceSpan content with
    | some u => json_loads u
    | none => .ok (.jobj [("raw".data, .jstr content)])

/-- ask_groq_json as a whole: the chat-completions HTTP call is an oracle
producing either a transport failure or the response content string, which
then goes through the parse phase. -/
def ask_groq_json (llmResult : Except Unit PyStr) : Except Unit JValue :=
  match llmResult with
  | .error e => .error e
  | .ok content => ask_groq_json_parse content

/-- The text slice embedded into the user prompt (src/app.py line 101). -/
def promptEmbeddedText (text : PyStr) : PyStr := text.take 20000

/-- The text slice stored into session state (src/app.py line 106). -/
def sessionRetainedText (text : PyStr) : PyStr := text.take 50000

/-- ASCII whitespace stripped by the Python str.strip call on the prompt
template (the template edges only contain newlines and spaces). -/
def pyIsSpace (c : Char) : Bool :=
  c = ' ' || c = '\t' || c = '\n' || c = '\r' || c = Char.ofNat 11 || c = Char.ofNat 12

/-- Python str.strip: remove leading and trailing whitespace. -/
def pyStrip (s : PyStr) : PyStr :=
  ((s.dropWhile pyIsSpace).reverse.dropWhile pyIsSpace).reverse

/-- The fixed system instruction (src/app.py line 82). -/
def systemInstructionText : PyStr :=
  ("You are a precise JSON extraction engine. Return ONLY compact JSON. No extra text.").data

/-- Prompt template text before the question. -/
def promptTemplateHead : PyStr :=
  ("\nReturn JSON with the following shape:\n\x7b\n  \"key_points\": [\x7b\"key\": \"…\", \"value\": \"…\"\x7d],\n  \"risk_level\": \"Low|Medium|High\",\n  \"confidence\": 0.0\n\x7d\n\nRules:\n- Aim for 5–8 key_points if possible; fewer is OK if the document is short.\n- Keep values concise.\n- If \x27risk\x27 doesn\x27t apply, set \"Low\".\n- confidence ∈ [0,1].\n\nQUESTION:\n").data

/-- Prompt template text between the question and the document text. -/
def promptTemplateMid : PyStr :=
  ("\n\nDOCUMENT TEXT (truncated if long):\n").data

/-- Prompt template text after the document text. -/
def promptTemplateTail : PyStr := ("\n        ").data

/-- The user prompt built by the Extract action (src/app.py lines 83 to
102): the f-string template with the question and the first 20000 characters
of the extracted text interpolated, then stripped. -/
def build_user_prompt (question text : PyStr) : PyStr :=
  pyStrip (promptTemplateHead ++ question ++ promptTemplateMid
    ++ promptEmbeddedText text ++ promptTemplateTail)

/-- The three session-state keys written by the Extract action. A value of
none models the key being absent from st.session_state. -/
structure SessionState where
  raw_text : Option PyStr
  question : Option PyStr
  extracted_json : Option JValue

/-- Observable outcome of one run of the Extract button handler. success
carries the new session state; inlineError is the st.error branch of the
handler with the prior state untouched; uncaughtExn is an exception that
escaped the handler entirely (no except clause of the handler caught it),
also leaving the prior state untouched. -/
inductive ExtractOutcome where
  | success (st : SessionState)
  | inlineError (st : SessionState)
  | uncaughtExn (st : SessionState)

/-- The Extract button handler (src/app.py lines 77 to 110). The text
extraction result is an oracle (the extractor can raise, for a PDF, when
both library methods fail); it is computed OUTSIDE the try statement, as is
the prompt construction; only the ask_groq_json call and the three session
assignments are inside the try. The LLM transport is an oracle mapping the
built prompt to a response content string or a failure. -/
def extract_action (textResult : Except Unit PyStr)
    (llmContent : PyStr → Except Unit PyStr) (question : PyStr)
    (st : SessionState) : ExtractOutcome :=
  match textResult with
  | .error _ => .uncaughtExn st
  | .ok text =>
    match ask_groq_json (llmContent (build_user_prompt question text)) with
    | .ok data =>
      .success { raw_text := some (sessionRetainedText text),
                 question := some question,
                 extracted_json := some data }
    | .error _ => .inlineError st

/-- Python dict get with a default value; keys are unique in parsed objects,
so the first match is the binding. -/
def assocGetD (fields : List (PyStr × JValue)) (k : PyStr) (d : JValue) : JValue :=
  match fields with
  | [] => d
  | (k2, v) :: rest => if k2 = k then v else assocGetD rest k d

/-- Association lookup without a default. -/
def assocFind (fields : List (PyStr × JValue)) (k : PyStr) : Option JValue :=
  match fields with
  | [] => none
  | (k2, v) :: rest => if k2 = k then some v else assocFind rest k

/-- The JSON payload posted to the webhook (src/app.py lines 125 to 130),
read from session state; none models the KeyError on an absent key (not
reachable through the UI, which only shows the alert section after a
successful extraction populated all three keys). -/
def build_payload (st : SessionState) (recip : PyStr) : Option JValue :=
  match st.question, st.raw_text, st.extracted_json with
  | some q, some rt, some ej =>
    some (.jobj [("question".data, .jstr q),
                 ("raw_text".data, .jstr rt),
                 ("extracted_json".data, ej),
                 ("recipient_email".data, .jstr recip)])
  | _, _, _ => none

/-- The raw_text field of a payload object. -/
def payloadRawText (p : JValue) : Option JValue :=
  match p with
  | .jobj fields => assocFind fields ("raw_text".data)
  | _ => none

/-- An HTTP response from the webhook: status code and body text. -/
structure HttpResp where
  status_code : Nat
  text : PyStr

/-- Observable outcome of one run of the Send Alert Mail handler.
notConfigured is the st.warning branch; rendered carries the three values
written to the page (final answer, email body, automation status); failed is
the st.error branch of the except clause. -/
inductive AlertOutcome where
  | notConfigured
  | rendered (final_answer email_body status : JValue)
  | failed

/-- The Send Alert Mail button handler (src/app.py lines 120 to 147), given
the configured webhook URL and an oracle for the requests.post call (a
transport failure or an HTTP response). The returned Bool records whether
the network call was performed at all. The response body is parsed as JSON
inside its own try; on failure the status/body mapping is synthesized from
the status code and raw body. The three dict get calls then render the
fields with fixed placeholder defaults; if the parsed body is not a mapping,
the attribute access raises and the enclosing except clause produces the
failed outcome. No status-code check is performed anywhere. -/
def send_alert_action (webhookURL : PyStr) (post : Except Unit HttpResp) :
    AlertOutcome × Bool :=
  if webhookURL = [] then (.notConfigured, false)
  else
    match post with
    | .error _ => (.failed, true)
    | .ok r =>
      match
        (match json_loads r.text with
         | .ok v => v
         | .error _ =>
           .jobj [("status".data, .jstr (("HTTP ".data) ++ (Nat.repr r.status_code).data)),
                  ("body".data, .jstr r.text)]) with
      | .jobj fields =>
        (.rendered (assocGetD fields ("final_answer".data) (.jstr ("_No answer returned_".data)))
                   (assocGetD fields ("email_body".data) (.jstr ("_No email body returned_".data)))
                   (assocGetD fields ("status".data) (.jstr ("Unknown".data))), true)
      | _ => (.failed, true)

/-- extract_text_from_pdf (src/app.py lines 28 to 40). The two PDF libraries
are oracles: pdfplumber yields per-page optional texts (a page with no text
yields none, mapped to the empty string by the or-empty idiom) or raises;
on any pdfplumber error the PyMuPDF fallback runs, yielding per-page texts
or raising, with no further handler, so a fallback failure propagates. Page
texts are joined with a newline in both branches. -/
def extract_text_from_pdf (plumberPages : Except Unit (List (Option PyStr)))
    (fitzPages : Except Unit (List PyStr)) : Except Unit PyStr :=
  match plumberPages with
  | .ok pages => .ok (List.intercalate ("\n".data) (pages.map (fun p => p.getD [])))
  | .error _ =>
    match fitzPages with
    | .ok texts => .ok (List.intercalate ("\n".data) texts)
    | .error e => .error e

/-- Lower bound of the valid second byte of a three-byte UTF-8 sequence,
depending on the lead byte (the E0 lead excludes overlong encodings). -/
def cont3lo (b : Nat) : Nat := if b = 0xE0 then 0xA0 else 0x80

/-- Upper bound (exclusive) of the valid second byte of a three-byte UTF-8
sequence (the ED lead excludes surrogate code points). -/
def cont3hi (b : Nat) : Nat := if b = 0xED then 0xA0 else 0xC0

/-- Lower bound of the valid second byte of a four-byte UTF-8 sequence
(the F0 lead excludes overlong encodings). -/
def cont4lo (b : Nat) : Nat := if b = 0xF0 then 0x90 else 0x80

/-- Upper bound (exclusive) of the valid second byte of a four-byte UTF-8
sequence (the F4 lead caps code points at 0x10FFFF). -/
def cont4hi (b : Nat) : Nat := if b = 0xF4 then 0x90 else 0xC0

/-- One step of the UTF-8 decoder with the ignore error handler, as CPython
performs it: given the current byte and the remaining bytes, produce the
decoded code point (or none when the maximal subpart at this position is
invalid and is skipped) together with the total number of input bytes
consumed, at least one. A missing continuation byte is treated like an
invalid one (the sentinel 0x100 fails every range check), matching the
CPython behaviour of skipping the consumed subpart and resuming at the
offending position. -/
def utf8Step (b : Nat) (bs : List Nat) : Option Nat × Nat :=
  if b < 0x80 then (some b, 1)
  else if b < 0xC2 then (none, 1)
  else if b < 0xE0 then
    let c2 := bs.getD 0 0x100
    if 0x80 ≤ c2 ∧ c2 < 0xC0 then (some ((b - 0xC0) * 64 + (c2 - 0x80)), 2)
    else (none, 1)
  else if b < 0xF0 then
    let c2 := bs.getD 0 0x100
    if cont3lo b ≤ c2 ∧ c2 < cont3hi b then
      let c3 := bs.getD 1 0x100
      if 0x80 ≤ c3 ∧ c3 < 0xC0 then
        (some ((b - 0xE0) * 4096 + (c2 - 0x80) * 64 + (c3 - 0x80)), 3)
      else (none, 2)
    else (none, 1)
  else if b < 0xF5 then
    let c2 := bs.getD 0 0x100
    if cont4lo b ≤ c2 ∧ c2 < cont4hi b then
      let c3 := bs.getD 1 0x100
      if 0x80 ≤ c3 ∧ c3 < 0xC0 then
        let c4 := bs.getD 2 0x100
        if 0x80 ≤ c4 ∧ c4 < 0xC0 then
          (some ((b - 0xF0) * 262144 + (c2 - 0x80) * 4096 + (c3 - 0x80) * 64 + (c4 - 0x80)), 4)
        else (none, 3)
      else (none, 2)
    else (none, 1)
  else (none, 1)

/-- Decoding loop: each step consumes at least one byte, so the fuel given
by the entry point (input length plus one) can never run out. -/
def utf8DecodeLoop (fuel : Nat) (l : List Nat) : List Nat :=
  match fuel with
  | 0 => []
  | fuel + 1 =>
    match l with
    | [] => []
    | b :: bs =>
      match utf8Step b bs with
      | (some c, k) => c :: utf8DecodeLoop fuel (List.drop (k - 1) bs)
      | (none, k) => utf8DecodeLoop fuel (List.drop (k - 1) bs)

/-- UTF-8 decoding of a byte list with the ignore error handler: invalid
subparts are skipped, never replaced; the function is total, mirroring the
fact that the ignore handler can never raise. Code points are returned as
natural numbers (the Python str is a sequence of code points). -/
def utf8DecodeIgnore (l : List Nat) : List Nat :=
  utf8DecodeLoop (l.length + 1) l

/-- extract_text_from_txt (src/app.py lines 42 to 43): decode the uploaded
bytes as UTF-8 with errors ignored. -/
def extract_text_from_txt (file_bytes : List Nat) : List Nat :=
  utf8DecodeIgnore file_bytes

/-- Canonical UTF-8 encoding of a code point, used to state that every
decoded character originates from a valid encoding present in the input. -/
def utf8EncodeNat (c : Nat) : List Nat :=
  if c < 0x80 then [c]
  else if c < 0x800 then [0xC0 + c / 64, 0x80 + c % 64]
  else if c < 0x10000 then [0xE0 + c / 4096, 0x80 + c / 64 % 64, 0x80 + c % 64]
  else [0xF0 + c / 262144, 0x80 + c / 4096 % 64, 0x80 + c / 64 % 64, 0x80 + c % 64]

/-- claim C1 counterexample: on the content left-brace oops right-brace the
direct parse fails, the regex span exists and equals the whole content, its
parse fails as well, and the parse phase raises (an error escapes) instead
of returning the raw fallback mapping, refuting the stated totality. -/
theorem claim_C1_counterexample :
    json_loads ("\x7boops\x7d".data) = .error () ∧
    braceSpan ("\x7boops\x7d".data) = some ("\x7boops\x7d".data) ∧
    ask_groq_json_parse ("\x7boops\x7d".data) = .error () :=
  ⟨rfl, rfl, rfl⟩

/-- claim C1 (amended): when direct parsing of the content fails, the parse
phase returns the raw fallback mapping only when no brace span exists; when
a span exists, the result is exactly the result of parsing the span, and an
exception of that second parse propagates to the caller. -/
theorem claim_C1 (content : PyStr) (h : json_loads content = .error ()) :
    (braceSpan content = none →
      ask_groq_json_parse content = .ok (.jobj [("raw".data, .jstr content)])) ∧
    (∀ u, braceSpan content = some u →
      ask_groq_json_parse content = json_loads u) := by
  constructor
  · intro hb
    simp [ask_groq_json_parse, h, hb]
  · intro u hb
    simp [ask_groq_json_parse, h, hb]

/-- claim C1 witness: the fallback branch at the concrete content hi. -/
theorem claim_C1_witness :
    json_loads ("hi".data) = .error () ∧
    ask_groq_json_parse ("hi".data) = .ok (.jobj [("raw".data, .jstr ("hi".data))]) :=
  ⟨rfl, (claim_C1 ("hi".data) rfl).1 rfl⟩

/-- claim C6: the three concrete parse results of the LLM JSON client: a
direct JSON object parses to its mapping; a JSON object inside prose is
recovered through the brace span; plain prose with no braces produces the
raw fallback mapping. -/
theorem claim_C6 :
    ask_groq_json_parse ("\x7b\"risk_level\":\"Low\"\x7d".data) =
      .ok (.jobj [("risk_level".data, .jstr ("Low".data))]) ∧
    ask_groq_json_parse ("Here it is: \x7b\"a\":1\x7d thanks".data) =
      .ok (.jobj [("a".data, .jint 1)]) ∧
    ask_groq_json_parse ("not json at all".data) =
      .ok (.jobj [("raw".data, .jstr ("not json at all".data))]) :=
  ⟨rfl, rfl, rfl⟩

/-- claim C3: the prompt-embedded text is at most 20000 characters, the
session-retained text is at most 50000 characters, and the former is a
prefix of the latter, for every extracted text. -/
theorem claim_C3 (t : PyStr) :
    (promptEmbeddedText t).length ≤ 20000 ∧
    (sessionRetainedText t).length ≤ 50000 ∧
    ∃ rest, sessionRetainedText t = promptEmbeddedText t ++ rest := by
  refine ⟨?_, ?_, ?_⟩
  · simp [promptEmbeddedText, List.length_take]
  · simp [sessionRetainedText, List.length_take]
  · refine ⟨(t.drop 20000).take 30000, ?_⟩
    rw [sessionRetainedText, promptEmbeddedText,
      show (50000 : Nat) = 20000 + 30000 from rfl, List.take_add]

/-- claim C4 counterexample: when the pdfplumber oracle raises and the
PyMuPDF fallback raises as well, the failure escapes extract_text_from_pdf
to the caller, refuting that no unhandled failure ever escapes. -/
theorem claim_C4_counterexample :
    extract_text_from_pdf (.error ()) (.error ()) = .error () := rfl

/-- claim C4 (amended): whenever the layout-aware method raises, the
fallback method is invoked and, when it succeeds, its page texts joined
with a newline are returned; when the fallback raises as well, that failure
propagates to the caller (the both-methods-fail case of the spec). -/
theorem claim_C4 (e : Unit) (texts : List PyStr) :
    extract_text_from_pdf (.error e) (.ok texts) =
      .ok (List.intercalate ("\n".data) texts) ∧
    ∀ e2 : Unit, extract_text_from_pdf (.error e) (.error e2) = .error e2 :=
  ⟨rfl, fun _ => rfl⟩

/-- claim C2 counterexample: when the text extraction raises (both PDF
methods failed), the exception escapes the Extract handler uncaught — the
try statement begins only after extraction and prompt construction — so it
is not surfaced as the inline error message the claim describes. -/
theorem claim_C2_counterexample :
    extract_action (.error ()) (fun _ => .ok ("\x7b\x7d".data)) ("q".data)
      ⟨none, none, none⟩ = .uncaughtExn ⟨none, none, none⟩ ∧
    ExtractOutcome.uncaughtExn ⟨none, none, none⟩ ≠
      ExtractOutcome.inlineError ⟨none, none, none⟩ :=
  ⟨rfl, fun h => ExtractOutcome.noConfusion h⟩

/-- claim C2 (amended): an exception from the LLM call or its content-parse
phase is caught and surfaced inline with the session state unchanged; an
exception from the text extraction propagates uncaught past the handler,
with the session state also unchanged; on success the three session fields
are updated together as one unit. -/
theorem claim_C2 (tr : Except Unit PyStr) (llm : PyStr → Except Unit PyStr)
    (q : PyStr) (st : SessionState) :
    (∀ e, tr = .error e → extract_action tr llm q st = .uncaughtExn st) ∧
    (∀ t, tr = .ok t → ask_groq_json (llm (build_user_prompt q t)) = .error () →
      extract_action tr llm q st = .inlineError st) ∧
    (∀ t data, tr = .ok t → ask_groq_json (llm (build_user_prompt q t)) = .ok data →
      extract_action tr llm q st =
        .success ⟨some (sessionRetainedText t), some q, some data⟩) := by
  refine ⟨?_, ?_, ?_⟩
  · rintro e rfl
    rfl
  · rintro t rfl h
    simp [extract_action, h]
  · rintro t data rfl h
    simp [extract_action, h]

/-- claim C2 witness: a successful extraction at concrete inputs updates
all three session fields together. -/
theorem claim_C2_witness :
    ask_groq_json ((fun _ => .ok ("\x7b\x7d".data))
      (build_user_prompt ("q".data) ("doc".data))) = .ok (.jobj []) ∧
    extract_action (.ok ("doc".data)) (fun _ => .ok ("\x7b\x7d".data)) ("q".data)
      ⟨none, none, none⟩ =
      .success ⟨some (sessionRetainedText ("doc".data)), some ("q".data), some (.jobj [])⟩ :=
  ⟨rfl, (claim_C2 (.ok ("doc".data)) (fun _ => .ok ("\x7b\x7d".data)) ("q".data)
    ⟨none, none, none⟩).2.2 ("doc".data) (.jobj []) rfl rfl⟩

/-- claim C9: after a successful extraction of text t, the session retains
the first 50000 characters of t, the webhook payload raw_text field is
exactly that retained truncation, and when t is longer than 50000
characters the field differs from the full text. -/
theorem claim_C9 (t q recip : PyStr) (llm : PyStr → Except Unit PyStr)
    (st : SessionState) (data : JValue)
    (h : ask_groq_json (llm (build_user_prompt q t)) = .ok data) :
    extract_action (.ok t) llm q st =
      .success ⟨some (sessionRetainedText t), some q, some data⟩ ∧
    ∃ p, build_payload ⟨some (sessionRetainedText t), some q, some data⟩ recip = some p ∧
      payloadRawText p = some (.jstr (List.take 50000 t)) ∧
      (50000 < t.length → payloadRawText p ≠ some (.jstr t)) := by
  constructor
  · simp [extract_action, h]
  · refine ⟨_, rfl, rfl, ?_⟩
    intro hlen heq
    have heq2 : some (JValue.jstr (List.take 50000 t)) = some (JValue.jstr t) := heq
    have h3 := Option.some.inj heq2
    have h4 : List.take 50000 t = t := by
      injection h3
    have h5 := congrArg List.length h4
    simp [List.length_take] at h5
    omega

/-- A constant LLM oracle returning the empty-object content yields the
empty-object result whatever prompt it receives. -/
theorem ask_groq_json_constOracle (x : PyStr) :
    ask_groq_json ((fun _ => .ok ("\x7b\x7d".data)) x) = .ok (.jobj []) := rfl

/-- claim C9 witness: at a concrete 50001-character text the payload
raw_text field is the 50000-character truncation and differs from the full
text. -/
theorem claim_C9_witness :
    extract_action (.ok (List.replicate 50001 'a')) (fun _ => .ok ("\x7b\x7d".data))
      ("q".data) ⟨none, none, none⟩ =
      .success ⟨some (sessionRetainedText (List.replicate 50001 'a')), some ("q".data),
        some (.jobj [])⟩ ∧
    ∃ p, build_payload ⟨some (sessionRetainedText (List.replicate 50001 'a')),
        some ("q".data), some (.jobj [])⟩ ("r".data) = some p ∧
      payloadRawText p = some (.jstr (List.take 50000 (List.replicate 50001 'a'))) ∧
      payloadRawText p ≠ some (.jstr (List.replicate 50001 'a')) := by
  obtain ⟨h1, p, h2, h3, h4⟩ := claim_C9 (List.replicate 50001 'a') ("q".data) ("r".data)
    (fun _ => .ok ("\x7b\x7d".data)) ⟨none, none, none⟩ (.jobj [])
    (ask_groq_json_constOracle (build_user_prompt ("q".data) (List.replicate 50001 'a')))
  exact ⟨h1, p, h2, h3, h4 (by rw [List.length_replicate]; omega)⟩

/-- claim C7: with an unset or empty webhook URL the Send Alert Mail action
skips the network call entirely (the Bool component records that no POST was
performed) and its outcome is only the not-configured warning. -/
theorem claim_C7 (url : PyStr) (post : Except Unit HttpResp) (h : url = []) :
    send_alert_action url post = (.notConfigured, false) := by
  subst h
  rfl

/-- claim C7 witness: the empty webhook URL at a concrete response oracle. -/
theorem claim_C7_witness :
    send_alert_action [] (.ok ⟨200, "x".data⟩) = (.notConfigured, false) :=
  claim_C7 [] (.ok ⟨200, "x".data⟩) rfl

/-- claim C8: when the response body fails to parse as JSON the synthesized
status/body mapping is rendered — placeholders for the absent final_answer
and email_body keys and the HTTP status string for status — and when the
body parses to a mapping its fields are rendered with the fixed placeholder
defaults for absent keys; neither path is an error. -/
theorem claim_C8 (url : PyStr) (r : HttpResp) (hurl : url ≠ []) :
    (json_loads r.text = .error () →
      send_alert_action url (.ok r) =
        (.rendered (.jstr ("_No answer returned_".data))
                   (.jstr ("_No email body returned_".data))
                   (.jstr (("HTTP ".data) ++ (Nat.repr r.status_code).data)), true)) ∧
    (∀ fields, json_loads r.text = .ok (.jobj fields) →
      send_alert_action url (.ok r) =
        (.rendered (assocGetD fields ("final_answer".data) (.jstr ("_No answer returned_".data)))
                   (assocGetD fields ("email_body".data) (.jstr ("_No email body returned_".data)))
                   (assocGetD fields ("status".data) (.jstr ("Unknown".data))), true)) := by
  constructor
  · intro h
    unfold send_alert_action
    rw [if_neg hurl]
    simp only
    rw [h]
    rfl
  · intro fields h
    unfold send_alert_action
    rw [if_neg hurl]
    simp only
    rw [h]

/-- claim C8 witness: a non-JSON body renders the synthesized mapping and a
JSON-object body renders its status with placeholder answer fields. -/
theorem claim_C8_witness :
    send_alert_action ("u".data) (.ok ⟨503, "oops".data⟩) =
      (.rendered (.jstr ("_No answer returned_".data))
                 (.jstr ("_No email body returned_".data))
                 (.jstr (("HTTP ".data) ++ (Nat.repr 503).data)), true) ∧
    send_alert_action ("u".data) (.ok ⟨200, "\x7b\"status\":\"sent\"\x7d".data⟩) =
      (.rendered (.jstr ("_No answer returned_".data))
                 (.jstr ("_No email body returned_".data))
                 (.jstr ("sent".data)), true) := by
  constructor
  · exact (claim_C8 ("u".data) ⟨503, "oops".data⟩ (by decide)).1 rfl
  · exact (claim_C8 ("u".data) ⟨200, "\x7b\"status\":\"sent\"\x7d".data⟩ (by decide)).2
      [("status".data, .jstr ("sent".data))] rfl

/-- claim C10 counterexample: a successful HTTP 200 response whose body
parses as a JSON value reaches the error branch (the attribute access on a
non-mapping raises inside the try), so network-level exceptions are not the
only way to reach it. -/
theorem claim_C10_counterexample :
    json_loads ("[1]".data) = .ok (.jarr [.jint 1]) ∧
    send_alert_action ("u".data) (.ok ⟨200, "[1]".data⟩) = (.failed, true) :=
  ⟨rfl, rfl⟩

/-- claim C10 (amended): no status-code check is performed — a response
whose body parses as a JSON object is rendered identically under any two
status codes, exactly like a successful one; a network-level exception
reaches the error branch; and additionally a body parsing to a non-mapping
JSON value also reaches the error branch. -/
theorem claim_C10 (url body : PyStr) (c1 c2 : Nat)
    (fields : List (PyStr × JValue)) (hurl : url ≠ [])
    (hbody : json_loads body = .ok (.jobj fields)) :
    send_alert_action url (.ok ⟨c1, body⟩) = send_alert_action url (.ok ⟨c2, body⟩) ∧
    send_alert_action url (.ok ⟨c1, body⟩) =
      (.rendered (assocGetD fields ("final_answer".data) (.jstr ("_No answer returned_".data)))
                 (assocGetD fields ("email_body".data) (.jstr ("_No email body returned_".data)))
                 (assocGetD fields ("status".data) (.jstr ("Unknown".data))), true) ∧
    send_alert_action url (.error ()) = (.failed, true) ∧
    (∀ body2 v, json_loads body2 = .ok v → (∀ f, v ≠ .jobj f) →
      send_alert_action url (.ok ⟨c1, body2⟩) = (.failed, true)) := by
  have render : ∀ code : Nat, send_alert_action url (.ok ⟨code, body⟩) =
      (.rendered (assocGetD fields ("final_answer".data) (.jstr ("_No answer returned_".data)))
                 (assocGetD fields ("email_body".data) (.jstr ("_No email body returned_".data)))
                 (assocGetD fields ("status".data) (.jstr ("Unknown".data))), true) := by
    intro code
    unfold send_alert_action
    rw [if_neg hurl]
    simp only
    rw [hbody]
  refine ⟨?_, render c1, ?_, ?_⟩
  · rw [render c1, render c2]
  · simp [send_alert_action, hurl]
  · intro body2 v h hne
    unfold send_alert_action
    rw [if_neg hurl]
    simp only
    rw [h]
    cases v with
    | jobj f => exact absurd rfl (hne f)
    | jnull => rfl
    | jbool b => rfl
    | jint n => rfl
    | jfloatLit l => rfl
    | jstr s => rfl
    | jarr xs => rfl

/-- claim C10 witness: identical rendering under status codes 200 and 500
for a JSON-object body, the error branch under a network exception, and the
error branch for a JSON-array body. -/
theorem claim_C10_witness :
    send_alert_action ("u".data) (.ok ⟨200, "\x7b\"status\":\"sent\"\x7d".data⟩) =
      send_alert_action ("u".data) (.ok ⟨500, "\x7b\"status\":\"sent\"\x7d".data⟩) ∧
    send_alert_action ("u".data) (.error ()) = (.failed, true) ∧
    send_alert_action ("u".data) (.ok ⟨200, "[1]".data⟩) = (.failed, true) := by
  obtain ⟨h1, h2, h3, h4⟩ := claim_C10 ("u".data) ("\x7b\"status\":\"sent\"\x7d".data)
    200 500 [("status".data, .jstr ("sent".data))] (by decide) rfl
  exact ⟨h1, h3, h4 ("[1]".data) (.jarr [.jint 1]) rfl (fun f hf => JValue.noConfusion hf)⟩

/-- Encoding a code point decoded from a two-byte sequence reproduces the
two bytes. -/
theorem utf8EncodeNat_two (b c2 : Nat) (hb1 : 0xC2 ≤ b) (hb2 : b < 0xE0)
    (h2 : 0x80 ≤ c2) (h2b : c2 < 0xC0) :
    utf8EncodeNat ((b - 0xC0) * 64 + (c2 - 0x80)) = [b, c2] := by
  unfold utf8EncodeNat
  rw [if_neg (by omega), if_pos (by omega)]
  simp only [List.cons.injEq, and_true]
  constructor <;> omega

/-- Encoding a code point decoded from a three-byte sequence reproduces the
three bytes. -/
theorem utf8EncodeNat_three (b c2 c3 : Nat) (hb1 : 0xE0 ≤ b) (hb2 : b < 0xF0)
    (h2 : 0x80 ≤ c2) (h2b : c2 < 0xC0) (h3 : 0x80 ≤ c3) (h3b : c3 < 0xC0)
    (hmin : 0x800 ≤ (b - 0xE0) * 4096 + (c2 - 0x80) * 64 + (c3 - 0x80)) :
    utf8EncodeNat ((b - 0xE0) * 4096 + (c2 - 0x80) * 64 + (c3 - 0x80)) = [b, c2, c3] := by
  unfold utf8EncodeNat
  rw [if_neg (by omega), if_neg (by omega), if_pos (by omega)]
  simp only [List.cons.injEq, and_true]
  refine ⟨by omega, by omega, by omega⟩

/-- Encoding a code point decoded from a four-byte sequence reproduces the
four bytes. -/
theorem utf8EncodeNat_four (b c2 c3 c4 : Nat) (hb1 : 0xF0 ≤ b) (hb2 : b < 0xF5)
    (h2 : 0x80 ≤ c2) (h2b : c2 < 0xC0) (h3 : 0x80 ≤ c3) (h3b : c3 < 0xC0)
    (h4 : 0x80 ≤ c4) (h4b : c4 < 0xC0)
    (hmin : 0x10000 ≤ (b - 0xF0) * 262144 + (c2 - 0x80) * 4096 + (c3 - 0x80) * 64 + (c4 - 0x80)) :
    utf8EncodeNat ((b - 0xF0) * 262144 + (c2 - 0x80) * 4096 + (c3 - 0x80) * 64 + (c4 - 0x80)) =
      [b, c2, c3, c4] := by
  unfold utf8EncodeNat
  rw [if_neg (by omega), if_neg (by omega), if_neg (by omega)]
  simp only [List.cons.injEq, and_true]
  refine ⟨by omega, by omega, by omega, by omega⟩

/-- Bounds extracted from the three-byte continuation range. -/
theorem cont3_bounds (b c2 : Nat) (h : cont3lo b ≤ c2 ∧ c2 < cont3hi b) :
    0x80 ≤ c2 ∧ c2 < 0xC0 ∧ (b = 0xE0 → 0xA0 ≤ c2) := by
  unfold cont3lo cont3hi at h
  by_cases hE : b = 0xE0 <;> by_cases hD : b = 0xED <;>
    simp [hE, hD] at h ⊢ <;> omega

/-- Bounds extracted from the four-byte continuation range. -/
theorem cont4_bounds (b c2 : Nat) (h : cont4lo b ≤ c2 ∧ c2 < cont4hi b) :
    0x80 ≤ c2 ∧ c2 < 0xC0 ∧ (b = 0xF0 → 0x90 ≤ c2) := by
  unfold cont4lo cont4hi at h
  by_cases hE : b = 0xF0 <;> by_cases hD : b = 0xF4 <;>
    simp [hE, hD] at h ⊢ <;> omega

/-- When a step emits a code point, the consumed bytes are exactly the
canonical encoding of that code point. -/
theorem utf8Step_some (b : Nat) (bs : List Nat) (c k : Nat)
    (h : utf8Step b bs = (some c, k)) :
    b :: bs = utf8EncodeNat c ++ List.drop (k - 1) bs := by
  simp only [utf8Step] at h
  split_ifs at h with h1 h2 h3 h4 h5 h6 h7 h8 h9 h10 h11 <;>
    simp only [Prod.mk.injEq, Option.some.injEq, reduceCtorEq, false_and] at h
  · obtain ⟨rfl, rfl⟩ := h
    rw [utf8EncodeNat, if_pos h1]
    simp
  · obtain ⟨rfl, rfl⟩ := h
    match bs with
    | [] =>
      exfalso
      have e : List.getD ([] : List Nat) 0 0x100 = 0x100 := rfl
      rw [e] at h4
      omega
    | c2 :: bs2 =>
      simp only [List.getD_cons_zero] at h4 ⊢
      rw [utf8EncodeNat_two b c2 (by omega) (by omega) h4.1 h4.2]
      simp
  · obtain ⟨rfl, rfl⟩ := h
    match bs with
    | [] =>
      exfalso
      have e : List.getD ([] : List Nat) 0 0x100 = 0x100 := rfl
      rw [e] at h6
      have hh := cont3_bounds b 0x100 h6
      omega
    | c2 :: bs2 =>
      match bs2 with
      | [] =>
        exfalso
        have e : List.getD [c2] 1 0x100 = 0x100 := rfl
        rw [e] at h7
        omega
      | c3 :: bs3 =>
        simp only [List.getD_cons_zero, List.getD_cons_succ] at h6 h7 ⊢
        obtain ⟨ha, hb', hc⟩ := cont3_bounds b c2 h6
        have hmin : 0x800 ≤ (b - 0xE0) * 4096 + (c2 - 0x80) * 64 + (c3 - 0x80) := by
          by_cases hE : b = 0xE0
          · have := hc hE
            omega
          · omega
        rw [utf8EncodeNat_three b c2 c3 (by omega) (by omega) ha hb' h7.1 h7.2 hmin]
        simp
  · obtain ⟨rfl, rfl⟩ := h
    match bs with
    | [] =>
      exfalso
      have e : List.getD ([] : List Nat) 0 0x100 = 0x100 := rfl
      rw [e] at h9
      have hh := cont4_bounds b 0x100 h9
      omega
    | c2 :: bs2 =>
      match bs2 with
      | [] =>
        exfalso
        have e : List.getD [c2] 1 0x100 = 0x100 := rfl
        rw [e] at h10
        omega
      | c3 :: bs3 =>
        match bs3 with
        | [] =>
          exfalso
          have e : List.getD [c2, c3] 2 0x100 = 0x100 := rfl
          rw [e] at h11
          omega
        | c4 :: bs4 =>
          simp only [List.getD_cons_zero, List.getD_cons_succ] at h9 h10 h11 ⊢
          obtain ⟨ha, hb', hc⟩ := cont4_bounds b c2 h9
          have hmin : 0x10000 ≤ (b - 0xF0) * 262144 + (c2 - 0x80) * 4096 +
              (c3 - 0x80) * 64 + (c4 - 0x80) := by
            by_cases hE : b = 0xF0
            · have := hc hE
              omega
            · omega
          rw [utf8EncodeNat_four b c2 c3 c4 (by omega) (by omega) ha hb'
            h10.1 h10.2 h11.1 h11.2 hmin]
          simp

/-- Every code point in the decoded output originates from a contiguous
valid encoding inside the input byte list. -/
theorem utf8DecodeLoop_mem (fuel : Nat) :
    ∀ (l : List Nat) (c : Nat), c ∈ utf8DecodeLoop fuel l →
      ∃ u v, l = u ++ utf8EncodeNat c ++ v := by
  induction fuel with
  | zero =>
    intro l c hc
    simp [utf8DecodeLoop] at hc
  | succ fuel ih =>
    intro l c hc
    match l with
    | [] => simp [utf8DecodeLoop] at hc
    | b :: bs =>
      rw [utf8DecodeLoop] at hc
      rcases hstep : utf8Step b bs with ⟨co, k⟩
      rw [hstep] at hc
      have hsplit : b :: bs = (b :: List.take (k - 1) bs) ++ List.drop (k - 1) bs := by
        rw [List.cons_append, List.take_append_drop]
      cases co with
      | some c1 =>
        simp only [List.mem_cons] at hc
        rcases hc with rfl | hcmem
        · refine ⟨[], List.drop (k - 1) bs, ?_⟩
          simpa using utf8Step_some b bs c k hstep
        · obtain ⟨u, v, huv⟩ := ih _ _ hcmem
          refine ⟨b :: List.take (k - 1) bs ++ u, v, ?_⟩
          rw [hsplit, huv]
          simp
      | none =>
        obtain ⟨u, v, huv⟩ := ih _ _ hc
        refine ⟨b :: List.take (k - 1) bs ++ u, v, ?_⟩
        rw [hsplit, huv]
        simp

/-- claim C5: UTF-8 decoding with ignored errors is total (the function
returns a value for every byte buffer), every code point of the output
stems from a valid UTF-8 encoding contiguously present in the input, and in
particular the replacement character can only appear when its own encoding
is present in the input — invalid sequences are dropped, not replaced. -/
theorem claim_C5 (bs : List Nat) :
    (∀ c ∈ extract_text_from_txt bs, ∃ u v, bs = u ++ utf8EncodeNat c ++ v) ∧
    (0xFFFD ∈ extract_text_from_txt bs →
      ∃ u v, bs = u ++ [0xEF, 0xBF, 0xBD] ++ v) := by
  constructor
  · intro c hc
    exact utf8DecodeLoop_mem (bs.length + 1) bs c hc
  · intro hm
    have h := utf8DecodeLoop_mem (bs.length + 1) bs 0xFFFD hm
    rwa [show utf8EncodeNat 0xFFFD = [0xEF, 0xBF, 0xBD] from rfl] at h

/-- claim C5 witness: in the buffer 0x41 0xFF 0xC3 0xA9 the invalid byte
0xFF is dropped, the decoded code point 233 appears, and its encoding is an
infix of the buffer. -/
theorem claim_C5_witness :
    (233 ∈ extract_text_from_txt [0x41, 0xFF, 0xC3, 0xA9]) ∧
    (∃ u v, [0x41, 0xFF, 0xC3, 0xA9] = u ++ utf8EncodeNat 233 ++ v) :=
  ⟨by decide, (claim_C5 [0x41, 0xFF, 0xC3, 0xA9]).1 233 (by decide)⟩
